import Mathlib

/-!
Verification of the real-time notification bridge of the
Abstract-salad-factory repository (`abstract_salad_bar/websocket.py`).

The Python module is shallowly embedded: each Python function used by the
claims becomes a Lean definition of the same name, with external effects
(the HTTP existence probe, the redis pub/sub handle, frames sent over the
websocket) made explicit as oracle parameters, state components and reply
lists.  Exceptions raised by the Python code are modelled with `Except`.
-/

namespace AbstractSaladBar

/-! ### Python string primitives

Models of the Python `str` methods used by `websocket.py`, over `String`
viewed as its list of characters. -/

/-- Python `s.lstrip(c)`: remove every leading occurrence of `c`. -/
def lstrip (c : Char) (s : String) : String :=
  String.mk (s.data.dropWhile (· = c))

/-- Python `s.rstrip(c)`: remove every trailing occurrence of `c`. -/
def rstrip (c : Char) (s : String) : String :=
  String.mk ((s.data.reverse.dropWhile (· = c)).reverse)

/-- Python `s.startswith(p)`. -/
def startswith (s p : String) : Bool :=
  p.data.isPrefixOf s.data

/-- Python `s.endswith(p)`. -/
def endswith (s p : String) : Bool :=
  p.data.isSuffixOf s.data

/-- Python `s[:-n]`: drop the last `n` characters (everything when `n ≥ len(s)`). -/
def dropEnd (s : String) (n : Nat) : String :=
  String.mk (s.data.take (s.data.length - n))

/-! ### `urllib.parse.urlparse`, restricted to the `.path` field

`parse_path` in `websocket.py` returns `urlparse(path).path`.  We model the
CPython algorithm for the fields that determine `.path`: the scheme split at
the first `':'` (taken when the part before it is non-empty and consists of
scheme characters), the netloc split when the remainder starts with `'//'`
(up to the next `'/'`, `'?'` or `'#'`), the fragment split at the first
`'#'`, the query split at the first `'?'`, and finally `urlparse`'s params
split on the last path segment for schemes that use params. -/

/-- `scheme_chars` of `urllib.parse`: letters, digits and `'+'`, `'-'`, `'.'`. -/
def isSchemeChar (c : Char) : Bool :=
  c.isAlpha || c.isDigit || c = '+' || c = '-' || c = '.'

/-- Split a character list at the first character satisfying `p`:
`splitFirst p l = (before, rest)` where `before ++ rest = l`, no character of
`before` satisfies `p`, and `rest` is empty or starts with a character
satisfying `p`.  `l.split(sep, 1)` and `l.find(sep)` in Python are both
recovered from this. -/
def splitFirst (p : Char → Bool) : List Char → List Char × List Char
  | [] => ([], [])
  | c :: t =>
    if p c then ([], c :: t)
    else (c :: (splitFirst p t).1, (splitFirst p t).2)

/-- The scheme and (pre-params) path fields computed by `urllib.parse.urlsplit`. -/
def urlsplitSchemePath (url : List Char) : List Char × List Char :=
  let sp := splitFirst (· = ':') url
  let schemeUrl :=
    if sp.2 ≠ [] ∧ sp.1 ≠ [] ∧ sp.1.all isSchemeChar then
      (sp.1.map Char.toLower, sp.2.tail)
    else ([], url)
  let url₂ :=
    match schemeUrl.2 with
    | '/' :: '/' :: t => (splitFirst (fun c => c = '/' || c = '?' || c = '#') t).2
    | u => u
  let url₃ := (splitFirst (· = '#') url₂).1
  let url₄ := (splitFirst (· = '?') url₃).1
  (schemeUrl.1, url₄)

/-- The schemes for which `urlparse` splits off params (`uses_params`,
minus its duplicates). -/
def uses_params : List String :=
  ["ftp", "hdl", "prospero", "http", "imap", "https", "shttp", "rtsp",
   "rtspu", "sip", "sips", "mms", "", "sftp", "tel"]

/-- The path part returned by CPython's `_splitparams`: cut at the first
`';'` of the last `'/'`-segment (of the whole string when there is no
`'/'`). -/
def splitparamsPath (url : List Char) : List Char :=
  if '/' ∈ url then
    let j := url.length - 1 - url.reverse.indexOf '/'
    if (splitFirst (· = ';') (url.drop j)).2 = [] then url
    else url.take j ++ (splitFirst (· = ';') (url.drop j)).1
  else (splitFirst (· = ';') url).1

/-- `parse_path` from `websocket.py`: `urlparse(path).path`, i.e. only the
path part of an url. -/
def parse_path (path : String) : String :=
  let sp := urlsplitSchemePath path.data
  if String.mk sp.1 ∈ uses_params ∧ ';' ∈ sp.2 then
    String.mk (splitparamsPath sp.2)
  else
    String.mk sp.2

/-! ### `is_valid_app_path` -/

/-- The resource-api server address read from the configuration
(`config['host']`, `config['port']`). -/
structure Config where
  host : String
  port : String
deriving DecidableEq

/-- The url string `is_valid_app_path` probes. -/
def probeUrl (cfg : Config) (path : String) : String :=
  "http://" ++ cfg.host ++ ":" ++ cfg.port ++ "/" ++ lstrip '/' path

/-- `is_valid_app_path` from `websocket.py`.  The HTTP GET is modelled by
the oracle `probe`, giving the status code the resource server would answer
for a url. -/
def is_valid_app_path (cfg : Config) (probe : String → Nat) (path : String) : Bool :=
  if startswith (lstrip '/' path) "/api" then
    !decide (400 ≤ probe (probeUrl cfg path) ∧ probe (probeUrl cfg path) < 600)
  else
    false

/-! ### JSON values

The result of Python's `json.loads`, and the payloads sent back through
`json.dumps`.  Numbers are modelled as integers (no claim involves
fractional numbers). -/

/-- A JSON value. -/
inductive Json where
  | null : Json
  | bool (b : Bool) : Json
  | num (n : Int) : Json
  | str (s : String) : Json
  | arr (xs : List Json) : Json
  | obj (fields : List (String × Json)) : Json

/-- Lookup in an object's field list (Python `d[k]` / `d.get(k)` on the
dict produced by `json.loads`; such dicts have unique keys). -/
def lookupField : List (String × Json) → String → Option Json
  | [], _ => none
  | (k, v) :: t, key => if k = key then some v else lookupField t key

/-- Python `message.get(key)` on a parsed JSON value: `none` when the key is
absent or the value is not a dict. -/
def jsonGet : Json → String → Option Json
  | Json.obj fields, key => lookupField fields key
  | _, _ => none

/-- Python `hasattr(message, 'get')` on a value produced by `json.loads`:
only dicts have a `get` attribute. -/
def Json.isObj : Json → Bool
  | Json.obj _ => true
  | _ => false

/-! ### The `PubSub` connection handler

Per-connection state is the python set `self.subscriptions` together with
the set of channels registered on the redis pub/sub handle `self.p`.
Frames sent to the client (`self.websocket.send(json.dumps(...))`) are
collected in a list; an uncaught Python exception is `Except.error`. -/

/-- The object sent by `producer`: `function` and `path` fields, with `data`
and `type` added for broker events of kind `message`. -/
structure WireMessage where
  function : String
  path : String
  data : Option Json
  type : Option Json

/-- A frame sent to the client over the websocket. -/
inductive Reply where
  | err (msg : String) : Reply
  | paths (ps : List String) : Reply
  | wire (w : WireMessage) : Reply

/-- The per-connection mutable state of `PubSub`. -/
structure PubSubState where
  subscriptions : Finset String
  redis : Finset String
deriving DecidableEq

/-- `PubSub.ls`: send the subscription set, sorted. -/
def ls (st : PubSubState) (_m : Json) : PubSubState × List Reply :=
  (st, [Reply.paths (st.subscriptions.sort (· ≤ ·))])

/-- `PubSub.subscribe`.  `message['path']` raises `KeyError` when the key is
absent (and `urlparse` fails on a non-string value), modelled as
`Except.error`; otherwise the code branches on set membership of the parsed
path and then on `is_valid_app_path`. -/
def subscribe (cfg : Config) (probe : String → Nat) (st : PubSubState)
    (message : Json) : Except String (PubSubState × List Reply) :=
  match jsonGet message "path" with
  | none => Except.error "KeyError: 'path'"
  | some (Json.str raw) =>
    let path := parse_path raw
    if path ∈ st.subscriptions then
      Except.ok (st, [Reply.err ("Already subscribed to path: " ++ path)])
    else if is_valid_app_path cfg probe path then
      Except.ok (⟨insert path st.subscriptions, insert path st.redis⟩, [])
    else
      Except.ok (st, [Reply.err ("Invalid path: " ++ path)])
  | some _ => Except.error "TypeError"

/-- `PubSub.unsubscribe`. -/
def unsubscribe (st : PubSubState) (message : Json) :
    Except String (PubSubState × List Reply) :=
  match jsonGet message "path" with
  | none => Except.error "KeyError: 'path'"
  | some (Json.str raw) =>
    let path := parse_path raw
    if path ∈ st.subscriptions then
      Except.ok (⟨st.subscriptions.erase path, st.redis.erase path⟩, [])
    else
      Except.ok (st, [Reply.err ("Not subscribed to path: " ++ path)])
  | some _ => Except.error "TypeError"

/-- `PubSub.functions`: the tuple of dispatchable command names. -/
def functions : List String := ["ls", "subscribe", "unsubscribe"]

/-- Python `function = message.get('function')` followed by the test
`function not in self.functions`: the JSON value equals one of the python
strings in `functions` exactly when it is that string; `none` here means
the test failed (key absent, value not a string, or an unknown name). -/
def functionName : Option Json → Option String
  | some (Json.str s) => if s ∈ functions then some s else none
  | _ => none

/-- `PubSub.consumer`: handle one inbound frame.  The frame's JSON parse is
given by its result, `none` when `json.loads` raises.  `Except.ok` models
the handler returning normally, so that the loop continues and the
connection stays open. -/
def consumer (cfg : Config) (probe : String → Nat) (st : PubSubState)
    (parsed : Option Json) : Except String (PubSubState × List Reply) :=
  match parsed with
  | none => Except.ok (st, [Reply.err "Message is not json loadable."])
  | some m =>
    if m.isObj then
      let f := functionName (jsonGet m "function")
      if f = some "ls" then Except.ok (ls st m)
      else if f = some "subscribe" then subscribe cfg probe st m
      else if f = some "unsubscribe" then unsubscribe st m
      else Except.ok
        (st, [Reply.err "function must be one of: ls, subscribe, unsubscribe."])
    else
      Except.ok (st, [Reply.err "Message must be a dict."])

/-- One message delivered by the redis pub/sub handle
(`self.p.get_message()`), with `channel` already utf-8 decoded and `data`
the JSON parse of the payload bytes. -/
structure RedisMessage where
  type : String
  channel : String
  data : Json

/-- `PubSub.producer`: translate one redis message into the wire message
sent to the client.  For kind `message` the payload fields `data['data']`
and `data['type']` are read, with `KeyError` on absence. -/
def producer (r : RedisMessage) : Except String WireMessage :=
  if r.type = "message" then
    match jsonGet r.data "data", jsonGet r.data "type" with
    | some d, some t => Except.ok ⟨r.type, r.channel, some d, some t⟩
    | _, _ => Except.error "KeyError"
  else
    Except.ok ⟨r.type, r.channel, none, none⟩

/-- The observable actions of `PubSub.__init__` / `PubSub.create` on a new
connection. -/
structure InitResult where
  closeCall : Option (Nat × String)
  scheduled : Option String
  entersMainLoop : Bool
deriving DecidableEq

/-- The connection path after `__init__`'s preprocessing: trailing slashes
stripped, then a trailing `/ws` removed. -/
def initPath (path : String) : String :=
  let p := rstrip '/' path
  if endswith p "/ws" then dropEnd p 3 else p

/-- `PubSub.create`: `__init__` calls `websocket.close(4000, 'Invalid path.')`
when the processed path is not valid — without returning or raising — then
schedules `subscribe` on the processed path when it is non-empty, and
`create` proceeds into `handle()` unconditionally. -/
def create (cfg : Config) (probe : String → Nat) (path : String) : InitResult :=
  let p := initPath path
  ⟨if is_valid_app_path cfg probe p then none else some (4000, "Invalid path."),
   if p = "" then none else some p,
   true⟩

/-- The state after handling one parsed frame, unchanged when the handler
raises. -/
def applyFrame (cfg : Config) (probe : String → Nat) (st : PubSubState)
    (parsed : Option Json) : PubSubState :=
  match consumer cfg probe st parsed with
  | Except.ok (st', _) => st'
  | Except.error _ => st

/-- The state reached from `st` by a sequence of inbound frames. -/
def runFrames (cfg : Config) (probe : String → Nat) (frames : List (Option Json))
    (st : PubSubState) : PubSubState :=
  frames.foldl (applyFrame cfg probe) st

/-! ### Helper lemmas -/

/-- A list with all leading `'/'` dropped cannot start with `'/'`. -/
theorem not_slash_isPrefixOf_dropWhile (r l : List Char) :
    (('/' :: r).isPrefixOf (l.dropWhile (· = '/'))) = false := by
  induction l with
  | nil => rfl
  | cons c t ih =>
    by_cases h : c = '/'
    · simpa [List.dropWhile_cons, h] using ih
    · have : ('/' == c) = false := by
        simpa [beq_iff_eq] using fun hc => h hc.symm
      simp [List.dropWhile_cons, h, List.isPrefixOf, this]

/-- The guard of `is_valid_app_path` can never hold: after `lstrip('/')` the
path cannot start with `'/'`, yet the code compares it against `'/api'`.
Hence `is_valid_app_path` returns `false` on every path, for every probe
oracle, and no probe is ever issued. -/
theorem is_valid_app_path_false (cfg : Config) (probe : String → Nat)
    (path : String) : is_valid_app_path cfg probe path = false := by
  have h : startswith (lstrip '/' path) "/api" = false := by
    have := not_slash_isPrefixOf_dropWhile ['a', 'p', 'i'] path.data
    simpa [startswith, lstrip] using this
  simp [is_valid_app_path, h]

/-- `splitFirst` passes over a block with no character satisfying `p`. -/
theorem splitFirst_append (p : Char → Bool) (a b : List Char)
    (h : ∀ c ∈ a, p c = false) :
    splitFirst p (a ++ b) = (a ++ (splitFirst p b).1, (splitFirst p b).2) := by
  induction a with
  | nil => simp
  | cons c t ih =>
    have hc : p c = false := h c (List.mem_cons_self c t)
    have ht : ∀ x ∈ t, p x = false := fun x hx => h x (List.mem_cons_of_mem c hx)
    simp [splitFirst, hc, ih ht]

/-- `splitFirst` stops at a first character satisfying `p`. -/
theorem splitFirst_cons_pos (p : Char → Bool) (c : Char) (t : List Char)
    (h : p c = true) : splitFirst p (c :: t) = ([], c :: t) := by
  simp [splitFirst, h]

/-- `splitFirst` keeps a list with no character satisfying `p` whole. -/
theorem splitFirst_none (p : Char → Bool) (a : List Char)
    (h : ∀ c ∈ a, p c = false) : splitFirst p a = (a, []) := by
  simpa [splitFirst] using splitFirst_append p a [] h

/-- A scheme character is not `':'`. -/
theorem not_colon_of_schemeChar {c : Char} (h : isSchemeChar c = true) :
    (decide (c = ':')) = false := by
  refine decide_eq_false (fun hc => ?_)
  subst hc
  exact absurd h (by decide)

/-- Evaluation of the urlsplit model on an absolute url
`scheme://host` ++ `p` ++ `?` ++ `q` whose parts stay in their own fields:
the path component is exactly `p`. -/
theorem urlsplit_eval (scheme host p q : String)
    (hs₁ : scheme.data ≠ [])
    (hs₂ : ∀ c ∈ scheme.data, isSchemeChar c = true)
    (hh : ∀ c ∈ host.data, c ≠ '/' ∧ c ≠ '?' ∧ c ≠ '#')
    (hp₁ : p.data.head? = some '/')
    (hp₂ : ∀ c ∈ p.data, c ≠ '?' ∧ c ≠ '#' ∧ c ≠ ';') :
    urlsplitSchemePath
      (scheme.data ++ (':' :: '/' :: '/' :: (host.data ++ (p.data ++ ('?' :: q.data)))))
      = (scheme.data.map Char.toLower, p.data) := by
  obtain ⟨pt, hpd⟩ : ∃ pt, p.data = '/' :: pt := by
    cases hd : p.data with
    | nil => rw [hd] at hp₁; exact absurd hp₁ (by simp)
    | cons c t =>
      rw [hd] at hp₁
      simp at hp₁
      exact ⟨t, by rw [hp₁]⟩
  have hsp₁ : splitFirst (· = ':')
      (scheme.data ++ (':' :: '/' :: '/' :: (host.data ++ (p.data ++ ('?' :: q.data)))))
      = (scheme.data, ':' :: '/' :: '/' :: (host.data ++ (p.data ++ ('?' :: q.data)))) := by
    rw [splitFirst_append _ _ _ (fun c hc => not_colon_of_schemeChar (hs₂ c hc)),
        splitFirst_cons_pos _ _ _ (by simp)]
    simp
  have hnet : splitFirst (fun c => c = '/' || c = '?' || c = '#')
      (host.data ++ (p.data ++ ('?' :: q.data)))
      = (host.data, p.data ++ ('?' :: q.data)) := by
    rw [splitFirst_append _ _ _ (fun c hc => by
          obtain ⟨h1, h2, h3⟩ := hh c hc
          simp [h1, h2, h3])]
    rw [hpd, List.cons_append, splitFirst_cons_pos _ _ _ (by simp)]
    simp [hpd]
  have hq0 : splitFirst (· = '#') ('?' :: q.data)
      = ('?' :: (splitFirst (· = '#') q.data).1, (splitFirst (· = '#') q.data).2) := by
    simp [splitFirst]
  have hfrag : splitFirst (· = '#') (p.data ++ ('?' :: q.data))
      = (p.data ++ ('?' :: (splitFirst (· = '#') q.data).1),
         (splitFirst (· = '#') q.data).2) := by
    rw [splitFirst_append _ _ _ (fun c hc => decide_eq_false (hp₂ c hc).2.1), hq0]
  have hquery : splitFirst (· = '?')
      (p.data ++ ('?' :: (splitFirst (· = '#') q.data).1))
      = (p.data, '?' :: (splitFirst (· = '#') q.data).1) := by
    rw [splitFirst_append _ _ _ (fun c hc => decide_eq_false (hp₂ c hc).1),
        splitFirst_cons_pos _ _ _ (by simp)]
    simp
  simp only [urlsplitSchemePath, hsp₁]
  rw [if_pos ⟨by simp, hs₁, List.all_eq_true.mpr hs₂⟩]
  simp only [List.tail_cons, hnet, hfrag, hquery]

/-- `parse_path` on an absolute url returns exactly the path component. -/
theorem parse_path_url (scheme host p q : String)
    (hs₁ : scheme.data ≠ [])
    (hs₂ : ∀ c ∈ scheme.data, isSchemeChar c = true)
    (hh : ∀ c ∈ host.data, c ≠ '/' ∧ c ≠ '?' ∧ c ≠ '#')
    (hp₁ : p.data.head? = some '/')
    (hp₂ : ∀ c ∈ p.data, c ≠ '?' ∧ c ≠ '#' ∧ c ≠ ';') :
    parse_path (scheme ++ "://" ++ host ++ p ++ "?" ++ q) = p := by
  have h2 : ("://" : String).data = [':', '/', '/'] := rfl
  have h3 : ("?" : String).data = ['?'] := rfl
  have hL : (scheme ++ "://" ++ host ++ p ++ "?" ++ q).data
      = scheme.data ++ (':' :: '/' :: '/' :: (host.data ++ (p.data ++ ('?' :: q.data)))) := by
    simp [String.data_append, h2, h3]
  simp only [parse_path, hL, urlsplit_eval scheme host p q hs₁ hs₂ hh hp₁ hp₂]
  rw [if_neg (fun h => (hp₂ ';' h.2).2.2 rfl)]

/-- `parse_path` leaves a plain path — no scheme, netloc, query, fragment
or params markers — unchanged; in particular trailing slashes and a
trailing `/ws` survive. -/
theorem parse_path_plain (raw : String)
    (h₁ : ∀ c ∈ raw.data, c ≠ ':' ∧ c ≠ '?' ∧ c ≠ '#' ∧ c ≠ ';')
    (h₂ : raw.data.take 2 ≠ ['/', '/']) :
    parse_path raw = raw := by
  have hsp : splitFirst (· = ':') raw.data = (raw.data, []) :=
    splitFirst_none _ _ (fun c hc => decide_eq_false (h₁ c hc).1)
  have hfrag : splitFirst (· = '#') raw.data = (raw.data, []) :=
    splitFirst_none _ _ (fun c hc => decide_eq_false (h₁ c hc).2.2.1)
  have hquery : splitFirst (· = '?') raw.data = (raw.data, []) :=
    splitFirst_none _ _ (fun c hc => decide_eq_false (h₁ c hc).2.1)
  have hmatch : (match raw.data with
      | '/' :: '/' :: t => (splitFirst (fun c => c = '/' || c = '?' || c = '#') t).2
      | u => u) = raw.data := by
    split
    · rename_i t heq
      exact absurd (by rw [heq]; rfl) h₂
    · rfl
  have hsplit : urlsplitSchemePath raw.data = ([], raw.data) := by
    simp only [urlsplitSchemePath, hsp]
    rw [if_neg (by simp)]
    simp only [hmatch, hfrag, hquery]
  simp only [parse_path, hsplit]
  rw [if_neg (fun h => (h₁ ';' h.2).2.2.2 rfl)]

/-- Case analysis for `subscribe` when `message['path']` is the string
`raw` (shared by several claims). -/
theorem subscribe_cases (cfg : Config) (probe : String → Nat)
    (st : PubSubState) (message : Json) (raw : String)
    (hm : jsonGet message "path" = some (Json.str raw)) :
    (parse_path raw ∈ st.subscriptions →
      subscribe cfg probe st message =
        Except.ok (st, [Reply.err ("Already subscribed to path: " ++ parse_path raw)])) ∧
    (parse_path raw ∉ st.subscriptions →
      is_valid_app_path cfg probe (parse_path raw) = false →
      subscribe cfg probe st message =
        Except.ok (st, [Reply.err ("Invalid path: " ++ parse_path raw)])) ∧
    (parse_path raw ∉ st.subscriptions →
      is_valid_app_path cfg probe (parse_path raw) = true →
      subscribe cfg probe st message =
        Except.ok (⟨insert (parse_path raw) st.subscriptions,
                    insert (parse_path raw) st.redis⟩, [])) := by
  refine ⟨fun hmem => ?_, fun hmem hv => ?_, fun hmem hv => ?_⟩
  · simp [subscribe, hm, hmem]
  · simp [subscribe, hm, hmem, hv]
  · simp [subscribe, hm, hmem, hv]

/-- Case analysis for `unsubscribe` when `message['path']` is the string
`raw`. -/
theorem unsubscribe_cases (st : PubSubState) (message : Json) (raw : String)
    (hm : jsonGet message "path" = some (Json.str raw)) :
    (parse_path raw ∈ st.subscriptions →
      unsubscribe st message =
        Except.ok (⟨st.subscriptions.erase (parse_path raw),
                    st.redis.erase (parse_path raw)⟩, [])) ∧
    (parse_path raw ∉ st.subscriptions →
      unsubscribe st message =
        Except.ok (st, [Reply.err ("Not subscribed to path: " ++ parse_path raw)])) := by
  refine ⟨fun hmem => ?_, fun hmem => ?_⟩ <;>
    simp [unsubscribe, hm, hmem]

/-! ### Claims -/

/-- C1: code bug.  `is_valid_app_path` compares the path, after stripping
leading slashes, against the prefix `'/api'`; a slash-stripped string can
never start with `'/'`, so the function returns `false` on every path and
never issues a probe — contrary to the claim (and the code's own comment
"Path must start with 'api'"): for "/api/salads" the stripped form does
begin with "api" and a probe status of 200 lies outside 400–599, yet the
result is `false`. -/
theorem is_valid_app_path_never_accepts :
    (∀ (cfg : Config) (probe : String → Nat) (path : String),
      is_valid_app_path cfg probe path = false) ∧
    startswith (lstrip '/' "/api/salads") "api" = true ∧
    (200 < 400 ∨ 600 ≤ 200) :=
  ⟨is_valid_app_path_false, by decide, by decide⟩

/-- C2: code bug.  On a new connection with initial path "/api/salads/ws"
the processed path fails the validity check and
`websocket.close(4000, 'Invalid path.')` is called, but `__init__` does not
stop there: a `subscribe` on the processed non-empty path is still
scheduled — which sends a further error frame to the client — and `create`
unconditionally proceeds into `handle()`, entering the main loop, contrary
to the claim that no other frames are sent and the main loop is never
entered. -/
theorem create_closes_then_proceeds :
    create ⟨"localhost", "8080"⟩ (fun _ => 200) "/api/salads/ws"
      = ⟨some (4000, "Invalid path."), some "/api/salads", true⟩ ∧
    subscribe ⟨"localhost", "8080"⟩ (fun _ => 200) ⟨∅, ∅⟩
      (Json.obj [("path", Json.str "/api/salads")])
      = Except.ok (⟨∅, ∅⟩, [Reply.err "Invalid path: /api/salads"]) :=
  ⟨by decide, rfl⟩

/-- C3: counterexample.  `parse_path` does not remove a trailing slash nor
a trailing `/ws` suffix: the canonical form of "/api/salads/" keeps its
trailing slash and that of "/api/salads/ws" keeps its suffix, so the two
textual variants "/api/salads/" and "/api/salads", which the claim says
normalize to the same canonical form, denote different subscription-set
members. -/
theorem parse_path_keeps_trailing_slash_and_ws :
    parse_path "/api/salads/" = "/api/salads/" ∧
    parse_path "/api/salads/ws" = "/api/salads/ws" ∧
    ("/api/salads/" : String) ≠ "/api/salads" := by
  refine ⟨rfl, rfl, by decide⟩

/-- C3 amended: canonicalization yields the URL path component only —
scheme, host, query (and fragment) stripped — while trailing slashes and a
trailing `/ws` suffix are preserved: an absolute url collapses to exactly
its path component, and a plain path (no scheme/netloc/query markers)
is left unchanged, so raw paths denote the same subscription-set member
exactly when their URL path components agree. -/
theorem parse_path_canonicalization :
    (∀ scheme host p q : String,
      scheme.data ≠ [] →
      (∀ c ∈ scheme.data, isSchemeChar c = true) →
      (∀ c ∈ host.data, c ≠ '/' ∧ c ≠ '?' ∧ c ≠ '#') →
      p.data.head? = some '/' →
      (∀ c ∈ p.data, c ≠ '?' ∧ c ≠ '#' ∧ c ≠ ';') →
      parse_path (scheme ++ "://" ++ host ++ p ++ "?" ++ q) = p) ∧
    (∀ raw : String,
      (∀ c ∈ raw.data, c ≠ ':' ∧ c ≠ '?' ∧ c ≠ '#' ∧ c ≠ ';') →
      raw.data.take 2 ≠ ['/', '/'] →
      parse_path raw = raw) :=
  ⟨parse_path_url, parse_path_plain⟩

/-- Witness for C3: the url "http://example.com/api/salads/123/ws?x=1"
canonicalizes to its path component "/api/salads/123/ws" (the `/ws`
suffix surviving), and the plain path "/api/salads/" is unchanged. -/
theorem parse_path_canonicalization_witness :
    parse_path ("http" ++ "://" ++ "example.com" ++ "/api/salads/123/ws" ++ "?" ++ "x=1")
      = "/api/salads/123/ws" ∧
    parse_path "/api/salads/" = "/api/salads/" :=
  ⟨parse_path_canonicalization.1 "http" "example.com" "/api/salads/123/ws" "x=1"
      (by decide) (by decide) (by decide) (by decide) (by decide),
   parse_path_canonicalization.2 "/api/salads/" (by decide) (by decide)⟩

/-- C4: `subscribe` first tests membership of the canonical path: a member
yields the AlreadySubscribed error reply with neither the subscription set
nor the redis handle mutated; a non-member failing `is_valid_app_path`
yields the InvalidPath error reply with no mutation; only a non-member
passing the check is registered on the redis handle and inserted into the
set. -/
theorem subscribe_membership_validity_order (cfg : Config)
    (probe : String → Nat) (st : PubSubState) (message : Json) (raw : String)
    (hm : jsonGet message "path" = some (Json.str raw)) :
    (parse_path raw ∈ st.subscriptions →
      subscribe cfg probe st message =
        Except.ok (st, [Reply.err ("Already subscribed to path: " ++ parse_path raw)])) ∧
    (parse_path raw ∉ st.subscriptions →
      is_valid_app_path cfg probe (parse_path raw) = false →
      subscribe cfg probe st message =
        Except.ok (st, [Reply.err ("Invalid path: " ++ parse_path raw)])) ∧
    (parse_path raw ∉ st.subscriptions →
      is_valid_app_path cfg probe (parse_path raw) = true →
      subscribe cfg probe st message =
        Except.ok (⟨insert (parse_path raw) st.subscriptions,
                    insert (parse_path raw) st.redis⟩, [])) :=
  subscribe_cases cfg probe st message raw hm

/-- Witness for C4: subscribing "/api/salads" while already a member sends
the AlreadySubscribed error and leaves the state unchanged. -/
theorem subscribe_membership_validity_order_witness :
    subscribe ⟨"localhost", "8080"⟩ (fun _ => 200) ⟨{"/api/salads"}, ∅⟩
        (Json.obj [("path", Json.str "/api/salads")])
      = Except.ok (⟨{"/api/salads"}, ∅⟩,
          [Reply.err ("Already subscribed to path: " ++ parse_path "/api/salads")]) :=
  (subscribe_membership_validity_order ⟨"localhost", "8080"⟩ (fun _ => 200)
      ⟨{"/api/salads"}, ∅⟩ (Json.obj [("path", Json.str "/api/salads")])
      "/api/salads" rfl).1 (by decide)

/-- C5: `unsubscribe` on a canonical path that is not a member sends the
NotSubscribed error reply and leaves the subscription set and the redis
handle unchanged; on a member it removes the path from both. -/
theorem unsubscribe_membership_order (st : PubSubState) (message : Json)
    (raw : String) (hm : jsonGet message "path" = some (Json.str raw)) :
    (parse_path raw ∈ st.subscriptions →
      unsubscribe st message =
        Except.ok (⟨st.subscriptions.erase (parse_path raw),
                    st.redis.erase (parse_path raw)⟩, [])) ∧
    (parse_path raw ∉ st.subscriptions →
      unsubscribe st message =
        Except.ok (st, [Reply.err ("Not subscribed to path: " ++ parse_path raw)])) :=
  unsubscribe_cases st message raw hm

/-- Witness for C5: unsubscribing "/api/salads" when nothing is subscribed
sends the NotSubscribed error and leaves the empty state unchanged. -/
theorem unsubscribe_membership_order_witness :
    unsubscribe ⟨∅, ∅⟩ (Json.obj [("path", Json.str "/api/salads")])
      = Except.ok (⟨∅, ∅⟩,
          [Reply.err ("Not subscribed to path: " ++ parse_path "/api/salads")]) :=
  (unsubscribe_membership_order ⟨∅, ∅⟩
      (Json.obj [("path", Json.str "/api/salads")]) "/api/salads" rfl).2 (by decide)

/-- C6: counterexample.  Starting from a state already subscribed to
"/api/salads", subscribe-then-unsubscribe on that same path ends with an
empty subscription set, not the prior one: subscribe answers
AlreadySubscribed without mutating, but unsubscribe then removes the
member, so the round-trip law fails as stated. -/
theorem sub_unsub_roundtrip_fails :
    (subscribe ⟨"localhost", "8080"⟩ (fun _ => 200)
        ⟨{"/api/salads"}, {"/api/salads"}⟩
        (Json.obj [("path", Json.str "/api/salads")])).bind
      (fun a => (unsubscribe a.1 (Json.obj [("path", Json.str "/api/salads")])).map
        (fun b => b.1.subscriptions))
      = Except.ok (∅ : Finset String) ∧
    ({"/api/salads"} : Finset String) ≠ (∅ : Finset String) :=
  ⟨rfl, by decide⟩

/-- C6 amended: provided the canonical path is not already a member,
subscribe followed by unsubscribe on the same path returns the
subscription set to exactly its prior state. -/
theorem sub_unsub_roundtrip_of_not_member (cfg : Config)
    (probe : String → Nat) (st : PubSubState) (message : Json) (raw : String)
    (hm : jsonGet message "path" = some (Json.str raw))
    (hnm : parse_path raw ∉ st.subscriptions) :
    (subscribe cfg probe st message).bind
      (fun a => (unsubscribe a.1 message).map (fun b => b.1.subscriptions))
      = Except.ok st.subscriptions := by
  cases hv : is_valid_app_path cfg probe (parse_path raw) with
  | false =>
    rw [(subscribe_cases cfg probe st message raw hm).2.1 hnm hv]
    show (unsubscribe st message).map (fun b => b.1.subscriptions)
        = Except.ok st.subscriptions
    rw [(unsubscribe_cases st message raw hm).2 hnm]
    rfl
  | true =>
    rw [(subscribe_cases cfg probe st message raw hm).2.2 hnm hv]
    show (unsubscribe ⟨insert (parse_path raw) st.subscriptions,
        insert (parse_path raw) st.redis⟩ message).map (fun b => b.1.subscriptions)
        = Except.ok st.subscriptions
    rw [(unsubscribe_cases _ message raw hm).1 (Finset.mem_insert_self _ _)]
    show Except.ok ((insert (parse_path raw) st.subscriptions).erase (parse_path raw))
        = Except.ok st.subscriptions
    rw [Finset.erase_insert hnm]

/-- Witness for C6 amended: on the empty state, subscribe then unsubscribe
of "/api/salads" ends with the empty subscription set again. -/
theorem sub_unsub_roundtrip_of_not_member_witness :
    (subscribe ⟨"localhost", "8080"⟩ (fun _ => 200) ⟨∅, ∅⟩
        (Json.obj [("path", Json.str "/api/salads")])).bind
      (fun a => (unsubscribe a.1 (Json.obj [("path", Json.str "/api/salads")])).map
        (fun b => b.1.subscriptions))
      = Except.ok (∅ : Finset String) :=
  sub_unsub_roundtrip_of_not_member ⟨"localhost", "8080"⟩ (fun _ => 200) ⟨∅, ∅⟩
    (Json.obj [("path", Json.str "/api/salads")]) "/api/salads" rfl (by decide)

/-- C7: a frame that is not JSON-parseable, or parses to a non-mapping,
makes `consumer` send a structured error reply and return normally (so the
loop continues and the connection stays open); a mapping whose `function`
field is missing or not one of `ls`, `subscribe`, `unsubscribe` gets the
error reply naming the valid function names; in all these cases the state
— subscription set and redis handle — is unchanged. -/
theorem consumer_malformed (cfg : Config) (probe : String → Nat)
    (st : PubSubState) :
    (consumer cfg probe st none
      = Except.ok (st, [Reply.err "Message is not json loadable."])) ∧
    (∀ j : Json, j.isObj = false →
      consumer cfg probe st (some j)
        = Except.ok (st, [Reply.err "Message must be a dict."])) ∧
    (∀ m : Json, m.isObj = true →
      (∀ s : String, jsonGet m "function" = some (Json.str s) → s ∉ functions) →
      consumer cfg probe st (some m)
        = Except.ok
            (st, [Reply.err "function must be one of: ls, subscribe, unsubscribe."])) := by
  refine ⟨rfl, fun j hj => ?_, fun m hm hf => ?_⟩
  · simp [consumer, hj]
  · have hfn : functionName (jsonGet m "function") = none := by
      cases hg : jsonGet m "function" with
      | none => rfl
      | some v =>
        cases v with
        | str s => simp [functionName, hf s hg]
        | _ => rfl
    simp [consumer, hm, hfn]

/-- Witness for C7: an unparseable frame, a JSON array frame and an object
frame with an unknown function each get their error reply on the empty
state, which is unchanged. -/
theorem consumer_malformed_witness :
    (consumer ⟨"localhost", "8080"⟩ (fun _ => 200) ⟨∅, ∅⟩ none
      = Except.ok (⟨∅, ∅⟩, [Reply.err "Message is not json loadable."])) ∧
    (consumer ⟨"localhost", "8080"⟩ (fun _ => 200) ⟨∅, ∅⟩ (some (Json.arr []))
      = Except.ok (⟨∅, ∅⟩, [Reply.err "Message must be a dict."])) ∧
    (consumer ⟨"localhost", "8080"⟩ (fun _ => 200) ⟨∅, ∅⟩
        (some (Json.obj [("function", Json.str "frobnicate")]))
      = Except.ok
          (⟨∅, ∅⟩, [Reply.err "function must be one of: ls, subscribe, unsubscribe."])) :=
  ⟨(consumer_malformed _ _ _).1,
   (consumer_malformed _ _ _).2.1 (Json.arr []) rfl,
   (consumer_malformed _ _ _).2.2 (Json.obj [("function", Json.str "frobnicate")]) rfl
     (fun s hs => by
        simp [jsonGet, lookupField] at hs
        subst hs
        decide)⟩

/-- C8: `producer` translates a broker event of kind `message` on channel
`p` carrying payload fields `data` and `type` into exactly the wire object
with `function = "message"`, `path = p` and those `data` and `type`
fields; an event of kind `subscribe` or `unsubscribe` becomes the wire
object with only the `function` and `path` fields. -/
theorem producer_wire_format (p kind : String) (payload other d t : Json)
    (hd : jsonGet payload "data" = some d)
    (ht : jsonGet payload "type" = some t)
    (hk : kind = "subscribe" ∨ kind = "unsubscribe") :
    producer ⟨"message", p, payload⟩
      = Except.ok ⟨"message", p, some d, some t⟩ ∧
    producer ⟨kind, p, other⟩ = Except.ok ⟨kind, p, none, none⟩ := by
  constructor
  · simp [producer, hd, ht]
  · rcases hk with rfl | rfl <;> simp [producer]

/-- Witness for C8: a CREATE event on "/api/salads/123" and a subscribe
confirmation on the same channel produce their wire objects. -/
theorem producer_wire_format_witness :
    producer ⟨"message", "/api/salads/123",
        Json.obj [("data", Json.obj [("name", Json.str "tomato")]),
                  ("type", Json.str "CREATE")]⟩
      = Except.ok ⟨"message", "/api/salads/123",
          some (Json.obj [("name", Json.str "tomato")]), some (Json.str "CREATE")⟩ ∧
    producer ⟨"subscribe", "/api/salads/123", Json.num 1⟩
      = Except.ok ⟨"subscribe", "/api/salads/123", none, none⟩ :=
  producer_wire_format "/api/salads/123" "subscribe"
    (Json.obj [("data", Json.obj [("name", Json.str "tomato")]),
               ("type", Json.str "CREATE")])
    (Json.num 1) (Json.obj [("name", Json.str "tomato")]) (Json.str "CREATE")
    rfl rfl (Or.inl rfl)

/-- C9: in every state reached from the initial (empty) state by any
sequence of inbound frames — hence by any ordering of subscribe and
unsubscribe commands — `ls` replies with a single list that is sorted in
the lexicographic order on strings, has no duplicates, and contains
exactly the members of the current subscription set. -/
theorem ls_reply_sorted (cfg : Config) (probe : String → Nat)
    (frames : List (Option Json)) (m : Json) :
    ∃ l : List String,
      ls (runFrames cfg probe frames ⟨∅, ∅⟩) m
        = (runFrames cfg probe frames ⟨∅, ∅⟩, [Reply.paths l]) ∧
      l.Sorted (· ≤ ·) ∧ l.Nodup ∧
      ∀ s : String,
        s ∈ l ↔ s ∈ (runFrames cfg probe frames ⟨∅, ∅⟩).subscriptions :=
  ⟨_, rfl, Finset.sort_sorted _ _, Finset.sort_nodup _ _,
    fun _ => Finset.mem_sort _⟩

/-- C10: a frame parsing to a JSON object whose `function` field is
`subscribe` or `unsubscribe` but that has no `path` key makes the
dispatched handler raise `KeyError` out of `consumer`: no error reply is
sent for the frame and the fault propagates (modelled as `Except.error`
with no replies). -/
theorem consumer_missing_path_keyerror (cfg : Config) (probe : String → Nat)
    (st : PubSubState) (m : Json) (hobj : m.isObj = true)
    (hf : jsonGet m "function" = some (Json.str "subscribe") ∨
          jsonGet m "function" = some (Json.str "unsubscribe"))
    (hp : jsonGet m "path" = none) :
    consumer cfg probe st (some m) = Except.error "KeyError: 'path'" := by
  rcases hf with hf | hf <;>
    simp [consumer, hobj, hf, functionName, functions, subscribe, unsubscribe, hp]

/-- Witness for C10: the frame `{'function': 'subscribe'}` with no path key
faults with a KeyError instead of an error reply. -/
theorem consumer_missing_path_keyerror_witness :
    consumer ⟨"localhost", "8080"⟩ (fun _ => 200) ⟨∅, ∅⟩
        (some (Json.obj [("function", Json.str "subscribe")]))
      = Except.error "KeyError: 'path'" :=
  consumer_missing_path_keyerror ⟨"localhost", "8080"⟩ (fun _ => 200) ⟨∅, ∅⟩
    (Json.obj [("function", Json.str "subscribe")]) rfl (Or.inl rfl) rfl

end AbstractSaladBar
